import Mathlib

/-!
# ethereal: the ENS transaction commands

A shallow embedding of the two command bodies of the repository,
`cmd/ensmultiaddrset.go` (`ens multiaddr set`) and `cmd/ensresolverclear.go`
(`ens resolver clear`).

A command body is a straight line of calls into collaborators (the ENS
binding, the multiaddr parser, the transaction-option builder), each followed
by a `cli.ErrCheck` or `cli.Assert` that terminates the process.  The
embedding threads an explicit `World` through the body: the calls made so far
(with whether each returned an error), what was written to standard output and
standard error, and the log records handed to the logging sink.  The process
terminating is the `Step.exit` constructor; the body running to its end is
`Step.cont`.  The answers of the collaborators are the fields of `Env`, so that
every theorem quantifies over all of them.
-/

namespace Ethereal

/-! ## Data -/

/-- A Go `error` value: `none` is `nil`, `some msg` an error whose `Error()` is `msg`. -/
abbrev GoError := Option String

/-- The pair `(value, err)` a Go call returns. -/
structure GoResult (α : Type) where
  val : α
  err : GoError
deriving DecidableEq, Repr

/-- An account or contract address, observed through `Bytes()`. -/
structure Address where
  Bytes : List Nat
deriving DecidableEq, Repr

/-- A 32-byte array: the type of a name hash and of a transaction hash. -/
abbrev Hash := { b : List Nat // b.length = 32 }

/-- The registry contract binding returned by `ens.RegistryContract`. -/
structure Registry where
  address : Address
deriving DecidableEq, Repr

/-- The resolver contract binding returned by `ens.ResolverContract`. -/
structure Resolver where
  address : Address
deriving DecidableEq, Repr

/-- Transaction options: sender, gas price, gas limit and nonce. -/
structure TransactOpts where
  From : Address
  GasPrice : Int
  GasLimit : Nat
  Nonce : Nat
deriving DecidableEq, Repr

/-- A parsed multiaddr, observed through `Bytes()` and `String()`. -/
structure Multiaddr where
  Bytes : List Nat
  String : String
deriving DecidableEq, Repr

/-- A signed transaction, observed through `Gas()`, `GasPrice()` and `Hash()`. -/
structure Transaction where
  Gas : Nat
  GasPrice : Int
  Hash : Hash
deriving DecidableEq

/-- A value stored in a log field. -/
inductive LogValue where
  | str (s : String)
  | num (n : Nat)
  | big (i : Int)
deriving DecidableEq, Repr

/-- The type `log.Fields`: field names with their values. -/
abbrev Fields := List (String × LogValue)

/-- The process-wide variables the command bodies read. -/
structure Globals where
  offline : Bool
  quiet : Bool
  ensDomain : String
  ensMultiaddrSetMultiaddrStr : String
  chainID : Int

/-- The collaborators of the command bodies: what each call answers. -/
structure Env where
  UnknownAddress : Address
  NameHash : String → Hash
  RegistryContract : GoResult Registry
  Owner : Registry → Hash → GoResult Address
  NewMultiaddr : String → GoResult Multiaddr
  ResolverContract : String → GoResult Resolver
  generateTxOpts : Address → GoResult TransactOpts
  SetMultiaddr : Resolver → TransactOpts → Hash → List Nat → GoResult Transaction
  SetResolver : Registry → TransactOpts → Hash → Address → GoResult Transaction

/-! ## The trace of a run -/

/-- A call into a collaborator, with its arguments. -/
inductive Call where
  | RegistryContract
  | Owner (registry : Registry) (node : Hash)
  | NewMultiaddr (s : String)
  | ResolverContract (domain : String)
  | generateTxOpts (sender : Address)
  | SetMultiaddr (resolver : Resolver) (opts : TransactOpts) (node : Hash) (data : List Nat)
  | SetResolver (registry : Registry) (opts : TransactOpts) (node : Hash) (resolver : Address)
deriving DecidableEq

/-- Which function a call is to. -/
inductive CallKind where
  | RegistryContract | Owner | NewMultiaddr | ResolverContract
  | generateTxOpts | SetMultiaddr | SetResolver
deriving DecidableEq, Repr

/-- The function a call is to. -/
def Call.kind : Call → CallKind
  | .RegistryContract => .RegistryContract
  | .Owner _ _ => .Owner
  | .NewMultiaddr _ => .NewMultiaddr
  | .ResolverContract _ => .ResolverContract
  | .generateTxOpts _ => .generateTxOpts
  | .SetMultiaddr _ _ _ _ => .SetMultiaddr
  | .SetResolver _ _ _ _ => .SetResolver

/-- A contract write is a call that submits a transaction. -/
def Call.isWrite : Call → Bool
  | .SetMultiaddr _ _ _ _ => true
  | .SetResolver _ _ _ _ => true
  | _ => false

/-- A call reaches the network unless it is the local multiaddr parser. -/
def Call.isNetwork : Call → Bool
  | .NewMultiaddr _ => false
  | _ => true

/-- One call that was made, and whether it returned a non-nil error. -/
structure Event where
  call : Call
  failed : Bool
deriving DecidableEq

/-- What a run has done so far. -/
structure World where
  calls : List Event
  stdout : List String
  stderr : List String
  logs : List Fields
deriving DecidableEq

/-- The world before the command body starts. -/
def World.init : World := ⟨[], [], [], []⟩

/-- Where a computation stands: still running with a value, or the process has exited. -/
inductive Step (α : Type) where
  | cont (w : World) (a : α)
  | exit (w : World) (code : Int)

/-- The world a computation ended in. -/
def Step.world {α : Type} : Step α → World
  | .cont w _ => w
  | .exit w _ => w

/-- The exit code, when the process was terminated by `os.Exit`. -/
def Step.exitCode {α : Type} : Step α → Option Int
  | .cont _ _ => none
  | .exit _ c => some c

/-- A computation over the world that may terminate the process. -/
def Proc (α : Type) : Type := World → Step α

instance : Monad Proc where
  pure a := fun w => .cont w a
  bind m f := fun w =>
    match m w with
    | .cont w1 a => f a w1
    | .exit w1 c => .exit w1 c

/-- The call `os.Exit(code)`. -/
def os.Exit (code : Int) : Proc Unit := fun w => .exit w code

/-- Writing one string to standard output. -/
def printOut (s : String) : Proc Unit :=
  fun w => .cont { w with stdout := w.stdout ++ [s] } ()

/-- Writing one string to standard error. -/
def printErr (s : String) : Proc Unit :=
  fun w => .cont { w with stderr := w.stderr ++ [s] } ()

/-- Handing one record to the logging sink. -/
def emitLog (f : Fields) : Proc Unit :=
  fun w => .cont { w with logs := w.logs ++ [f] } ()

/-- Making a call: it is recorded with its outcome, and its result handed back. -/
def invoke {α : Type} (c : Call) (r : GoResult α) : Proc (GoResult α) :=
  fun w => .cont { w with calls := w.calls ++ [⟨c, r.err.isSome⟩] } r

/-! ## Library functions the bodies use -/

/-- The function `bytes.Compare`: lexicographic comparison, giving -1, 0 or 1. -/
def bytes.Compare : List Nat → List Nat → Int
  | [], [] => 0
  | [], _ :: _ => -1
  | _ :: _, [] => 1
  | a :: as, b :: bs =>
    if a < b then -1 else if b < a then 1 else bytes.Compare as bs

/-- The sixteen lower-case hexadecimal digits. -/
def hexDigits : List Char := "0123456789abcdef".data

/-- The two hexadecimal digits of a byte. -/
def hexByte (b : Nat) : List Char :=
  [hexDigits.getD ((b / 16) % 16) '0', hexDigits.getD (b % 16) '0']

/-- Modelled from the spec: `Hash.Hex()` belongs to the Ethereum client library,
not to the sources. A transaction hash is printed as `0x` followed by 64
hexadecimal digits, two for each of its 32 bytes. -/
def Hash.Hex (h : Hash) : String :=
  "0x" ++ String.mk (h.val.flatMap hexByte)

/-- The call `fmt.Println(s)`. -/
def fmt.Println (s : String) : Proc Unit := printOut (s ++ "\n")

/-- The call `fmt.Printf("%s\n", s)`. -/
def fmt.Printf (s : String) : Proc Unit := printOut (s ++ "\n")

/-- Modelled from the spec: `cli.Err` is not among the sources. Every failure
emits a diagnostic (suppressed by the quiet flag, which leaves only the exit
status) and the process exits with code 1, the code the help text of both
commands promises when the transaction is not sent. -/
def cli.Err (quiet : Bool) (msg : String) : Proc Unit := do
  if !quiet then
    printErr (msg ++ "\n")
  os.Exit 1

/-- Modelled from the spec: `cli.Assert` is not among the sources. A
precondition that does not hold is fatal: diagnostic, then exit code 1. -/
def cli.Assert (condition : Bool) (quiet : Bool) (msg : String) : Proc Unit := do
  if !condition then
    cli.Err quiet msg

/-- Modelled from the spec: `cli.ErrCheck` is not among the sources. A non-nil
error of a call is fatal: it is reported with the underlying error message,
and the process exits with code 1. -/
def cli.ErrCheck (err : GoError) (quiet : Bool) (msg : String) : Proc Unit := do
  match err with
  | none => pure ()
  | some e => cli.Err quiet (msg ++ ": " ++ e)

/-- Modelled from the spec: `setupLogging` is not among the sources; it
configures the logging sink and touches nothing the trace observes. -/
def setupLogging : Proc Unit := pure ()

/-- Modelled from the spec: the fields of a log record that describe the signed
transaction are `networkid`, `gas`, `gasprice` and `transactionid`. -/
def txFields (g : Globals) (signedTx : Transaction) : Fields :=
  [("networkid", .big g.chainID),
   ("gas", .num signedTx.Gas),
   ("gasprice", .str (toString signedTx.GasPrice)),
   ("transactionid", .str signedTx.Hash.Hex)]

/-- Modelled from the spec: `logTransaction` is not among the sources. The
record it emits carries the fields it is given, followed by the fields that
describe the signed transaction. -/
def logTransaction (g : Globals) (signedTx : Transaction) (fields : Fields) : Proc Unit :=
  emitLog (fields ++ txFields g signedTx)

/-! ## The command bodies -/

/-- The fields `ens multiaddr set` gives to `log.WithFields`. -/
def ensMultiaddrSetCmd.logFields (g : Globals) (multiaddr : Multiaddr)
    (signedTx : Transaction) : Fields :=
  [("group", .str "ens/multiaddr"),
   ("command", .str "set"),
   ("domain", .str g.ensDomain),
   ("multiaddr", .str multiaddr.String),
   ("networkid", .big g.chainID),
   ("gas", .num signedTx.Gas),
   ("gasprice", .str (toString signedTx.GasPrice)),
   ("transactionid", .str signedTx.Hash.Hex)]

/-- The body of `ens multiaddr set`. -/
def ensMultiaddrSetCmd.Run (g : Globals) (env : Env) : Proc Unit := do
  cli.Assert (!g.offline) g.quiet "Offline mode not supported at current with this command"
  cli.Assert (g.ensDomain != "") g.quiet "--domain is required"
  let ⟨registryContract, err⟩ ← invoke .RegistryContract env.RegistryContract
  cli.ErrCheck err g.quiet "cannot obtain ENS registry contract"
  -- Fetch the owner of the name
  let ⟨owner, err⟩ ← invoke (.Owner registryContract (env.NameHash g.ensDomain))
    (env.Owner registryContract (env.NameHash g.ensDomain))
  cli.ErrCheck err g.quiet "cannot obtain owner"
  cli.Assert (bytes.Compare owner.Bytes env.UnknownAddress.Bytes != 0) g.quiet
    ("owner of " ++ g.ensDomain ++ " is not set")
  -- Obtain the multiaddr
  let ⟨multiaddr, err⟩ ← invoke (.NewMultiaddr g.ensMultiaddrSetMultiaddrStr)
    (env.NewMultiaddr g.ensMultiaddrSetMultiaddrStr)
  cli.ErrCheck err g.quiet ("invalid multiaddr " ++ g.ensMultiaddrSetMultiaddrStr)
  -- Obtain the resolver for this name
  let ⟨resolver, err⟩ ← invoke (.ResolverContract g.ensDomain) (env.ResolverContract g.ensDomain)
  cli.ErrCheck err g.quiet "No resolver for that name"
  let ⟨opts, err⟩ ← invoke (.generateTxOpts owner) (env.generateTxOpts owner)
  cli.ErrCheck err g.quiet "failed to generate transaction options"
  let ⟨signedTx, err⟩ ←
    invoke (.SetMultiaddr resolver opts (env.NameHash g.ensDomain) multiaddr.Bytes)
      (env.SetMultiaddr resolver opts (env.NameHash g.ensDomain) multiaddr.Bytes)
  cli.ErrCheck err g.quiet "failed to send transaction"
  setupLogging
  emitLog (ensMultiaddrSetCmd.logFields g multiaddr signedTx)
  if g.quiet then
    os.Exit 0
  fmt.Println signedTx.Hash.Hex

/-- The fields `ens resolver clear` gives to `logTransaction`. -/
def ensResolverClearCmd.logFields (g : Globals) : Fields :=
  [("group", .str "ens/resolver"),
   ("command", .str "clear"),
   ("ensdomain", .str g.ensDomain)]

/-- The body of `ens resolver clear`. -/
def ensResolverClearCmd.Run (g : Globals) (env : Env) : Proc Unit := do
  cli.Assert (!g.offline) g.quiet "Offline mode not supported at current with this command"
  cli.Assert (g.ensDomain != "") g.quiet "--domain is required"
  let ⟨registryContract, err⟩ ← invoke .RegistryContract env.RegistryContract
  cli.ErrCheck err g.quiet "cannot obtain ENS registry contract"
  -- Fetch the owner of the name
  let ⟨owner, err⟩ ← invoke (.Owner registryContract (env.NameHash g.ensDomain))
    (env.Owner registryContract (env.NameHash g.ensDomain))
  cli.ErrCheck err g.quiet "cannot obtain owner"
  cli.Assert (bytes.Compare owner.Bytes env.UnknownAddress.Bytes != 0) g.quiet
    ("owner of " ++ g.ensDomain ++ " is not set")
  let ⟨opts, err⟩ ← invoke (.generateTxOpts owner) (env.generateTxOpts owner)
  cli.ErrCheck err g.quiet "failed to generate transaction options"
  let ⟨signedTx, err⟩ ←
    invoke (.SetResolver registryContract opts (env.NameHash g.ensDomain) env.UnknownAddress)
      (env.SetResolver registryContract opts (env.NameHash g.ensDomain) env.UnknownAddress)
  cli.ErrCheck err g.quiet "failed to send transaction"
  logTransaction g signedTx (ensResolverClearCmd.logFields g)
  if !g.quiet then
    fmt.Printf signedTx.Hash.Hex
  os.Exit 0

/-- A whole run of `ens multiaddr set`, from the initial world. -/
def runMultiaddrSet (g : Globals) (env : Env) : Step Unit :=
  ensMultiaddrSetCmd.Run g env World.init

/-- A whole run of `ens resolver clear`, from the initial world. -/
def runResolverClear (g : Globals) (env : Env) : Step Unit :=
  ensResolverClearCmd.Run g env World.init

/-- The fixed order of the calls of `ens multiaddr set`. -/
def multiaddrSetPipeline : List CallKind :=
  [.RegistryContract, .Owner, .NewMultiaddr, .ResolverContract, .generateTxOpts, .SetMultiaddr]

/-- The fixed order of the calls of `ens resolver clear`. -/
def resolverClearPipeline : List CallKind :=
  [.RegistryContract, .Owner, .generateTxOpts, .SetResolver]

/-! ## Vocabulary of the statements -/

/-- The kinds of the calls made, in order. -/
def World.kinds (w : World) : List CallKind := w.calls.map (fun e => e.call.kind)

/-- The contract writes among the calls made, in order. -/
def World.writes (w : World) : List Event := w.calls.filter (fun e => e.call.isWrite)

/-- A run succeeded when a contract write was made and returned no error. -/
def Step.succeeded (r : Step Unit) : Prop :=
  ∃ e ∈ r.world.calls, e.call.isWrite = true ∧ e.failed = false

/-- The answer to the owner lookup for the domain of the command. -/
def Env.owner (env : Env) (g : Globals) : GoResult Address :=
  env.Owner env.RegistryContract.val (env.NameHash g.ensDomain)

/-- The answer to parsing the multiaddr flag. -/
def Env.multiaddr (env : Env) (g : Globals) : GoResult Multiaddr :=
  env.NewMultiaddr g.ensMultiaddrSetMultiaddrStr

/-- The answer to building transaction options for the owner of the domain. -/
def Env.opts (env : Env) (g : Globals) : GoResult TransactOpts :=
  env.generateTxOpts (env.owner g).val

/-- The `SetMultiaddr` call `ens multiaddr set` makes. -/
def Env.multiaddrWrite (env : Env) (g : Globals) : Call :=
  .SetMultiaddr (env.ResolverContract g.ensDomain).val (env.opts g).val
    (env.NameHash g.ensDomain) (env.multiaddr g).val.Bytes

/-- The answer to the contract write of `ens multiaddr set`. -/
def Env.multiaddrTx (env : Env) (g : Globals) : GoResult Transaction :=
  env.SetMultiaddr (env.ResolverContract g.ensDomain).val (env.opts g).val
    (env.NameHash g.ensDomain) (env.multiaddr g).val.Bytes

/-- The `SetResolver` call `ens resolver clear` makes. -/
def Env.resolverWrite (env : Env) (g : Globals) : Call :=
  .SetResolver env.RegistryContract.val (env.opts g).val
    (env.NameHash g.ensDomain) env.UnknownAddress

/-- The answer to the contract write of `ens resolver clear`. -/
def Env.resolverTx (env : Env) (g : Globals) : GoResult Transaction :=
  env.SetResolver env.RegistryContract.val (env.opts g).val
    (env.NameHash g.ensDomain) env.UnknownAddress

/-- The calls of `ens multiaddr set` in order, each with its arguments and outcome. -/
def multiaddrSetCalls (g : Globals) (env : Env) : List Event :=
  [⟨.RegistryContract, env.RegistryContract.err.isSome⟩,
   ⟨.Owner env.RegistryContract.val (env.NameHash g.ensDomain), (env.owner g).err.isSome⟩,
   ⟨.NewMultiaddr g.ensMultiaddrSetMultiaddrStr, (env.multiaddr g).err.isSome⟩,
   ⟨.ResolverContract g.ensDomain, (env.ResolverContract g.ensDomain).err.isSome⟩,
   ⟨.generateTxOpts (env.owner g).val, (env.opts g).err.isSome⟩,
   ⟨env.multiaddrWrite g, (env.multiaddrTx g).err.isSome⟩]

/-- The calls of `ens resolver clear` in order, each with its arguments and outcome. -/
def resolverClearCalls (g : Globals) (env : Env) : List Event :=
  [⟨.RegistryContract, env.RegistryContract.err.isSome⟩,
   ⟨.Owner env.RegistryContract.val (env.NameHash g.ensDomain), (env.owner g).err.isSome⟩,
   ⟨.generateTxOpts (env.owner g).val, (env.opts g).err.isSome⟩,
   ⟨env.resolverWrite g, (env.resolverTx g).err.isSome⟩]

/-- The world a failed check leaves: the diagnostic is the only change. -/
def failWorld (quiet : Bool) (msg : String) (w : World) : World :=
  if quiet then w else { w with stderr := w.stderr ++ [msg ++ "\n"] }

/-- How a run ended: exit code, calls made, standard output and log records. -/
def Ends (r : Step Unit) (code : Option Int) (calls : List Event) (out : List String)
    (logs : List Fields) : Prop :=
  r.exitCode = code ∧ r.world.calls = calls ∧ r.world.stdout = out ∧ r.world.logs = logs

/-! ## Concrete inputs -/

/-- A name hash and transaction hash used in the examples. -/
def sampleHash : Hash := ⟨List.replicate 32 171, by decide⟩

/-- The flags of `--domain=enstest.eth --multiaddr=/ip4/1.2.3.4`, online and not quiet. -/
def sampleGlobals : Globals := ⟨false, false, "enstest.eth", "/ip4/1.2.3.4", 1⟩

/-- A world in which the domain is owned, has a resolver, and every call succeeds;
the parser accepts `/ip4/1.2.3.4` only. -/
def sampleEnv : Env :=
  { UnknownAddress := ⟨List.replicate 20 0⟩
    NameHash := fun _ => sampleHash
    RegistryContract := ⟨⟨⟨[1]⟩⟩, none⟩
    Owner := fun _ _ => ⟨⟨List.replicate 20 7⟩, none⟩
    NewMultiaddr := fun s =>
      if s = "/ip4/1.2.3.4" then ⟨⟨[4, 1, 2, 3, 4], s⟩, none⟩
      else ⟨⟨[], ""⟩, some "failed to parse multiaddr"⟩
    ResolverContract := fun _ => ⟨⟨⟨[2]⟩⟩, none⟩
    generateTxOpts := fun a => ⟨⟨a, 1, 2, 3⟩, none⟩
    SetMultiaddr := fun _ _ _ _ => ⟨⟨21000, 5, sampleHash⟩, none⟩
    SetResolver := fun _ _ _ _ => ⟨⟨21000, 5, sampleHash⟩, none⟩ }

/-- The world of `sampleEnv`, but the registry reports the domain as unowned. -/
def unownedEnv : Env :=
  { sampleEnv with Owner := fun _ _ => ⟨⟨List.replicate 20 0⟩, none⟩ }

/-- The world of `sampleEnv`, but the account cannot be unlocked. -/
def lockedEnv : Env :=
  { sampleEnv with generateTxOpts := fun a => ⟨⟨a, 0, 0, 0⟩, some "failed to unlock"⟩ }

/-- The world of `sampleEnv`, but the domain has no resolver. -/
def noResolverEnv : Env :=
  { sampleEnv with ResolverContract := fun _ => ⟨⟨⟨[]⟩⟩, some "no resolver"⟩ }

/-- The flags of `sampleGlobals` with `--quiet`. -/
def quietGlobals : Globals := { sampleGlobals with quiet := true }

/-- The flags of `sampleGlobals` in offline mode. -/
def offlineGlobals : Globals := { sampleGlobals with offline := true }

/-- The flags of `sampleGlobals` without `--domain`. -/
def noDomainGlobals : Globals := { sampleGlobals with ensDomain := "" }

/-- The flags of `sampleGlobals` with `--multiaddr=not-a-multiaddr`. -/
def badMultiaddrGlobals : Globals :=
  { sampleGlobals with ensMultiaddrSetMultiaddrStr := "not-a-multiaddr" }

/-- The premise of the multiaddr-set property as the specification words it: a
well-formed multiaddr string, and a domain with a valid owner and a resolver. -/
def WellFormedRequest (g : Globals) (env : Env) : Prop :=
  (env.multiaddr g).err = none ∧ env.RegistryContract.err = none ∧
  (env.owner g).err = none ∧ (env.owner g).val ≠ env.UnknownAddress ∧
  (env.ResolverContract g.ensDomain).err = none

/-! ## Running the primitives -/

@[simp] theorem bind_run {α β : Type} (m : Proc α) (f : α → Proc β) (w : World) :
    (m >>= f) w = match m w with
      | .cont w1 a => f a w1
      | .exit w1 c => .exit w1 c := rfl

@[simp] theorem pure_run {α : Type} (a : α) (w : World) :
    (pure a : Proc α) w = .cont w a := rfl

@[simp] theorem failWorld_calls (q : Bool) (msg : String) (w : World) :
    (failWorld q msg w).calls = w.calls := by
  cases q <;> rfl

@[simp] theorem failWorld_stdout (q : Bool) (msg : String) (w : World) :
    (failWorld q msg w).stdout = w.stdout := by
  cases q <;> rfl

@[simp] theorem failWorld_logs (q : Bool) (msg : String) (w : World) :
    (failWorld q msg w).logs = w.logs := by
  cases q <;> rfl

@[simp] theorem err_run (q : Bool) (msg : String) (w : World) :
    cli.Err q msg w = .exit (failWorld q msg w) 1 := by
  cases q <;> rfl

@[simp] theorem assert_true_run (q : Bool) (msg : String) (w : World) :
    cli.Assert true q msg w = .cont w () := rfl

@[simp] theorem assert_false_run (q : Bool) (msg : String) (w : World) :
    cli.Assert false q msg w = .exit (failWorld q msg w) 1 := by
  cases q <;> rfl

@[simp] theorem errCheck_none_run (q : Bool) (msg : String) (w : World) :
    cli.ErrCheck none q msg w = .cont w () := rfl

@[simp] theorem errCheck_some_run (e : String) (q : Bool) (msg : String) (w : World) :
    cli.ErrCheck (some e) q msg w = .exit (failWorld q (msg ++ ": " ++ e) w) 1 := by
  cases q <;> rfl

@[simp] theorem invoke_run {α : Type} (c : Call) (r : GoResult α) (w : World) :
    invoke c r w = .cont { w with calls := w.calls ++ [⟨c, r.err.isSome⟩] } r := rfl

@[simp] theorem exit_run (c : Int) (w : World) : os.Exit c w = .exit w c := rfl

@[simp] theorem printOut_run (s : String) (w : World) :
    printOut s w = .cont { w with stdout := w.stdout ++ [s] } () := rfl

@[simp] theorem println_run (s : String) (w : World) :
    fmt.Println s w = .cont { w with stdout := w.stdout ++ [s ++ "\n"] } () := rfl

@[simp] theorem printf_run (s : String) (w : World) :
    fmt.Printf s w = .cont { w with stdout := w.stdout ++ [s ++ "\n"] } () := rfl

@[simp] theorem emitLog_run (f : Fields) (w : World) :
    emitLog f w = .cont { w with logs := w.logs ++ [f] } () := rfl

@[simp] theorem setupLogging_run (w : World) : setupLogging w = .cont w () := rfl

@[simp] theorem logTransaction_run (g : Globals) (tx : Transaction) (f : Fields) (w : World) :
    logTransaction g tx f w = .cont { w with logs := w.logs ++ [f ++ txFields g tx] } () := rfl

/-! ## The owner check -/

theorem compare_eq_zero (a b : List Nat) : bytes.Compare a b = 0 ↔ a = b := by
  induction a generalizing b with
  | nil => cases b <;> simp [bytes.Compare]
  | cons x xs ih =>
    cases b with
    | nil => simp [bytes.Compare]
    | cons y ys =>
      simp only [bytes.Compare]
      split
      · simp; omega
      · split
        · simp; omega
        · rw [ih]; simp; omega

theorem owner_check_true (a b : Address) (h : a ≠ b) :
    (bytes.Compare a.Bytes b.Bytes != 0) = true := by
  cases a; cases b; simpa [compare_eq_zero] using h

theorem owner_check_false (a : Address) :
    (bytes.Compare a.Bytes a.Bytes != 0) = false := by
  simp [compare_eq_zero]

theorem domain_check_true (d : String) (h : d ≠ "") : (d != "") = true := by
  simpa using h

/-! ## Every way a run can go -/

theorem multiaddrSet_cases (g : Globals) (env : Env) :
    (g.offline = true ∧ Ends (runMultiaddrSet g env) (some 1) [] [] []) ∨
    (g.offline = false ∧ g.ensDomain = "" ∧ Ends (runMultiaddrSet g env) (some 1) [] [] []) ∨
    (g.offline = false ∧ g.ensDomain ≠ "" ∧ env.RegistryContract.err ≠ none ∧
      Ends (runMultiaddrSet g env) (some 1) ((multiaddrSetCalls g env).take 1) [] []) ∨
    (g.offline = false ∧ g.ensDomain ≠ "" ∧ env.RegistryContract.err = none ∧
      (env.owner g).err ≠ none ∧
      Ends (runMultiaddrSet g env) (some 1) ((multiaddrSetCalls g env).take 2) [] []) ∨
    (g.offline = false ∧ g.ensDomain ≠ "" ∧ env.RegistryContract.err = none ∧
      (env.owner g).err = none ∧ (env.owner g).val = env.UnknownAddress ∧
      Ends (runMultiaddrSet g env) (some 1) ((multiaddrSetCalls g env).take 2) [] []) ∨
    (g.offline = false ∧ g.ensDomain ≠ "" ∧ env.RegistryContract.err = none ∧
      (env.owner g).err = none ∧ (env.owner g).val ≠ env.UnknownAddress ∧
      (env.multiaddr g).err ≠ none ∧
      Ends (runMultiaddrSet g env) (some 1) ((multiaddrSetCalls g env).take 3) [] []) ∨
    (g.offline = false ∧ g.ensDomain ≠ "" ∧ env.RegistryContract.err = none ∧
      (env.owner g).err = none ∧ (env.owner g).val ≠ env.UnknownAddress ∧
      (env.multiaddr g).err = none ∧ (env.ResolverContract g.ensDomain).err ≠ none ∧
      Ends (runMultiaddrSet g env) (some 1) ((multiaddrSetCalls g env).take 4) [] []) ∨
    (g.offline = false ∧ g.ensDomain ≠ "" ∧ env.RegistryContract.err = none ∧
      (env.owner g).err = none ∧ (env.owner g).val ≠ env.UnknownAddress ∧
      (env.multiaddr g).err = none ∧ (env.ResolverContract g.ensDomain).err = none ∧
      (env.opts g).err ≠ none ∧
      Ends (runMultiaddrSet g env) (some 1) ((multiaddrSetCalls g env).take 5) [] []) ∨
    (g.offline = false ∧ g.ensDomain ≠ "" ∧ env.RegistryContract.err = none ∧
      (env.owner g).err = none ∧ (env.owner g).val ≠ env.UnknownAddress ∧
      (env.multiaddr g).err = none ∧ (env.ResolverContract g.ensDomain).err = none ∧
      (env.opts g).err = none ∧ (env.multiaddrTx g).err ≠ none ∧
      Ends (runMultiaddrSet g env) (some 1) (multiaddrSetCalls g env) [] []) ∨
    (g.offline = false ∧ g.ensDomain ≠ "" ∧ env.RegistryContract.err = none ∧
      (env.owner g).err = none ∧ (env.owner g).val ≠ env.UnknownAddress ∧
      (env.multiaddr g).err = none ∧ (env.ResolverContract g.ensDomain).err = none ∧
      (env.opts g).err = none ∧ (env.multiaddrTx g).err = none ∧ g.quiet = true ∧
      Ends (runMultiaddrSet g env) (some 0) (multiaddrSetCalls g env) []
        [ensMultiaddrSetCmd.logFields g (env.multiaddr g).val (env.multiaddrTx g).val]) ∨
    (g.offline = false ∧ g.ensDomain ≠ "" ∧ env.RegistryContract.err = none ∧
      (env.owner g).err = none ∧ (env.owner g).val ≠ env.UnknownAddress ∧
      (env.multiaddr g).err = none ∧ (env.ResolverContract g.ensDomain).err = none ∧
      (env.opts g).err = none ∧ (env.multiaddrTx g).err = none ∧ g.quiet = false ∧
      Ends (runMultiaddrSet g env) none (multiaddrSetCalls g env)
        [(env.multiaddrTx g).val.Hash.Hex ++ "\n"]
        [ensMultiaddrSetCmd.logFields g (env.multiaddr g).val (env.multiaddrTx g).val]) := by
  by_cases hoff : g.offline = true
  · left
    simp [Ends, runMultiaddrSet, ensMultiaddrSetCmd.Run, World.init, Step.exitCode, Step.world,
      hoff]
  have hoff : g.offline = false := by simpa using hoff
  right
  by_cases hd : g.ensDomain = ""
  · left
    simp [Ends, runMultiaddrSet, ensMultiaddrSetCmd.Run, World.init, Step.exitCode, Step.world,
      hoff, hd]
  have hd1 := domain_check_true _ hd
  right
  rcases hr : env.RegistryContract with ⟨reg, _ | e⟩
  swap
  · left
    simp [Ends, runMultiaddrSet, ensMultiaddrSetCmd.Run, World.init, Step.exitCode, Step.world,
      hoff, hd, hd1, hr, multiaddrSetCalls]
  right
  rcases ho : env.Owner reg (env.NameHash g.ensDomain) with ⟨owner, _ | e⟩
  swap
  · left
    simp [Ends, runMultiaddrSet, ensMultiaddrSetCmd.Run, World.init, Step.exitCode, Step.world,
      hoff, hd, hd1, hr, ho, multiaddrSetCalls, Env.owner]
  right
  by_cases hu : owner = env.UnknownAddress
  · left
    simp [Ends, runMultiaddrSet, ensMultiaddrSetCmd.Run, World.init, Step.exitCode, Step.world,
      hoff, hd, hd1, hr, ho, hu, multiaddrSetCalls, Env.owner, owner_check_false]
  have hu1 := owner_check_true _ _ hu
  right
  rcases hm : env.NewMultiaddr g.ensMultiaddrSetMultiaddrStr with ⟨m, _ | e⟩
  swap
  · left
    simp [Ends, runMultiaddrSet, ensMultiaddrSetCmd.Run, World.init, Step.exitCode, Step.world,
      hoff, hd, hd1, hr, ho, hu, hu1, hm, multiaddrSetCalls, Env.owner, Env.multiaddr]
  right
  rcases hres : env.ResolverContract g.ensDomain with ⟨res, _ | e⟩
  swap
  · left
    simp [Ends, runMultiaddrSet, ensMultiaddrSetCmd.Run, World.init, Step.exitCode, Step.world,
      hoff, hd, hd1, hr, ho, hu, hu1, hm, hres, multiaddrSetCalls, Env.owner, Env.multiaddr]
  right
  rcases hopts : env.generateTxOpts owner with ⟨opts, _ | e⟩
  swap
  · left
    simp [Ends, runMultiaddrSet, ensMultiaddrSetCmd.Run, World.init, Step.exitCode, Step.world,
      hoff, hd, hd1, hr, ho, hu, hu1, hm, hres, hopts, multiaddrSetCalls, Env.owner,
      Env.multiaddr, Env.opts]
  right
  rcases htx : env.SetMultiaddr res opts (env.NameHash g.ensDomain) m.Bytes with ⟨tx, _ | e⟩
  swap
  · left
    simp [Ends, runMultiaddrSet, ensMultiaddrSetCmd.Run, World.init, Step.exitCode, Step.world,
      hoff, hd, hd1, hr, ho, hu, hu1, hm, hres, hopts, htx, multiaddrSetCalls, Env.owner,
      Env.multiaddr, Env.opts, Env.multiaddrTx, Env.multiaddrWrite]
  right
  cases hq : g.quiet
  · right
    simp [Ends, runMultiaddrSet, ensMultiaddrSetCmd.Run, World.init, Step.exitCode, Step.world,
      hoff, hd, hd1, hr, ho, hu, hu1, hm, hres, hopts, htx, hq, multiaddrSetCalls, Env.owner,
      Env.multiaddr, Env.opts, Env.multiaddrTx, Env.multiaddrWrite]
  · left
    simp [Ends, runMultiaddrSet, ensMultiaddrSetCmd.Run, World.init, Step.exitCode, Step.world,
      hoff, hd, hd1, hr, ho, hu, hu1, hm, hres, hopts, htx, hq, multiaddrSetCalls, Env.owner,
      Env.multiaddr, Env.opts, Env.multiaddrTx, Env.multiaddrWrite]

theorem resolverClear_cases (g : Globals) (env : Env) :
    (g.offline = true ∧ Ends (runResolverClear g env) (some 1) [] [] []) ∨
    (g.offline = false ∧ g.ensDomain = "" ∧ Ends (runResolverClear g env) (some 1) [] [] []) ∨
    (g.offline = false ∧ g.ensDomain ≠ "" ∧ env.RegistryContract.err ≠ none ∧
      Ends (runResolverClear g env) (some 1) ((resolverClearCalls g env).take 1) [] []) ∨
    (g.offline = false ∧ g.ensDomain ≠ "" ∧ env.RegistryContract.err = none ∧
      (env.owner g).err ≠ none ∧
      Ends (runResolverClear g env) (some 1) ((resolverClearCalls g env).take 2) [] []) ∨
    (g.offline = false ∧ g.ensDomain ≠ "" ∧ env.RegistryContract.err = none ∧
      (env.owner g).err = none ∧ (env.owner g).val = env.UnknownAddress ∧
      Ends (runResolverClear g env) (some 1) ((resolverClearCalls g env).take 2) [] []) ∨
    (g.offline = false ∧ g.ensDomain ≠ "" ∧ env.RegistryContract.err = none ∧
      (env.owner g).err = none ∧ (env.owner g).val ≠ env.UnknownAddress ∧
      (env.opts g).err ≠ none ∧
      Ends (runResolverClear g env) (some 1) ((resolverClearCalls g env).take 3) [] []) ∨
    (g.offline = false ∧ g.ensDomain ≠ "" ∧ env.RegistryContract.err = none ∧
      (env.owner g).err = none ∧ (env.owner g).val ≠ env.UnknownAddress ∧
      (env.opts g).err = none ∧ (env.resolverTx g).err ≠ none ∧
      Ends (runResolverClear g env) (some 1) (resolverClearCalls g env) [] []) ∨
    (g.offline = false ∧ g.ensDomain ≠ "" ∧ env.RegistryContract.err = none ∧
      (env.owner g).err = none ∧ (env.owner g).val ≠ env.UnknownAddress ∧
      (env.opts g).err = none ∧ (env.resolverTx g).err = none ∧ g.quiet = true ∧
      Ends (runResolverClear g env) (some 0) (resolverClearCalls g env) []
        [ensResolverClearCmd.logFields g ++ txFields g (env.resolverTx g).val]) ∨
    (g.offline = false ∧ g.ensDomain ≠ "" ∧ env.RegistryContract.err = none ∧
      (env.owner g).err = none ∧ (env.owner g).val ≠ env.UnknownAddress ∧
      (env.opts g).err = none ∧ (env.resolverTx g).err = none ∧ g.quiet = false ∧
      Ends (runResolverClear g env) (some 0) (resolverClearCalls g env)
        [(env.resolverTx g).val.Hash.Hex ++ "\n"]
        [ensResolverClearCmd.logFields g ++ txFields g (env.resolverTx g).val]) := by
  by_cases hoff : g.offline = true
  · left
    simp [Ends, runResolverClear, ensResolverClearCmd.Run, World.init, Step.exitCode, Step.world,
      hoff]
  have hoff : g.offline = false := by simpa using hoff
  right
  by_cases hd : g.ensDomain = ""
  · left
    simp [Ends, runResolverClear, ensResolverClearCmd.Run, World.init, Step.exitCode, Step.world,
      hoff, hd]
  have hd1 := domain_check_true _ hd
  right
  rcases hr : env.RegistryContract with ⟨reg, _ | e⟩
  swap
  · left
    simp [Ends, runResolverClear, ensResolverClearCmd.Run, World.init, Step.exitCode, Step.world,
      hoff, hd, hd1, hr, resolverClearCalls]
  right
  rcases ho : env.Owner reg (env.NameHash g.ensDomain) with ⟨owner, _ | e⟩
  swap
  · left
    simp [Ends, runResolverClear, ensResolverClearCmd.Run, World.init, Step.exitCode, Step.world,
      hoff, hd, hd1, hr, ho, resolverClearCalls, Env.owner]
  right
  by_cases hu : owner = env.UnknownAddress
  · left
    simp [Ends, runResolverClear, ensResolverClearCmd.Run, World.init, Step.exitCode, Step.world,
      hoff, hd, hd1, hr, ho, hu, resolverClearCalls, Env.owner, owner_check_false]
  have hu1 := owner_check_true _ _ hu
  right
  rcases hopts : env.generateTxOpts owner with ⟨opts, _ | e⟩
  swap
  · left
    simp [Ends, runResolverClear, ensResolverClearCmd.Run, World.init, Step.exitCode, Step.world,
      hoff, hd, hd1, hr, ho, hu, hu1, hopts, resolverClearCalls, Env.owner, Env.opts]
  right
  rcases htx : env.SetResolver reg opts (env.NameHash g.ensDomain) env.UnknownAddress
    with ⟨tx, _ | e⟩
  swap
  · left
    simp [Ends, runResolverClear, ensResolverClearCmd.Run, World.init, Step.exitCode, Step.world,
      hoff, hd, hd1, hr, ho, hu, hu1, hopts, htx, resolverClearCalls, Env.owner, Env.opts,
      Env.resolverTx, Env.resolverWrite]
  right
  cases hq : g.quiet
  · right
    simp [Ends, runResolverClear, ensResolverClearCmd.Run, World.init, Step.exitCode, Step.world,
      hoff, hd, hd1, hr, ho, hu, hu1, hopts, htx, hq, resolverClearCalls, Env.owner, Env.opts,
      Env.resolverTx, Env.resolverWrite]
  · left
    simp [Ends, runResolverClear, ensResolverClearCmd.Run, World.init, Step.exitCode, Step.world,
      hoff, hd, hd1, hr, ho, hu, hu1, hopts, htx, hq, resolverClearCalls, Env.owner, Env.opts,
      Env.resolverTx, Env.resolverWrite]

/-! ## The hexadecimal form of a hash -/

theorem flatMap_hexByte_length (l : List Nat) : (l.flatMap hexByte).length = 2 * l.length := by
  induction l with
  | nil => rfl
  | cons b bs ih => simp [List.flatMap_cons, hexByte, ih]; omega

theorem hexDigit_mem (i : Nat) (h : i < 16) : hexDigits.getD i '0' ∈ hexDigits := by
  interval_cases i <;> decide

theorem flatMap_hexByte_digits (l : List Nat) : ∀ c ∈ l.flatMap hexByte, c ∈ hexDigits := by
  intro c hc
  simp only [List.mem_flatMap, hexByte, List.mem_cons, List.mem_singleton, List.not_mem_nil,
    or_false] at hc
  obtain ⟨b, -, rfl | rfl⟩ := hc
  · exact hexDigit_mem _ (Nat.mod_lt _ (by decide))
  · exact hexDigit_mem _ (Nat.mod_lt _ (by decide))

theorem hex_data (h : Hash) : h.Hex.data = '0' :: 'x' :: h.val.flatMap hexByte := by
  simp [Hash.Hex, String.data_append]

theorem hex_length (h : Hash) : h.Hex.length = 66 := by
  have : h.Hex.length = h.Hex.data.length := rfl
  rw [this, hex_data]
  simp only [List.length_cons, flatMap_hexByte_length, h.property]

/-! ## The claims -/

/-- C1. When the owner lookup for the domain answers the unset sentinel
address, both `ens multiaddr set` and `ens resolver clear` exit with code 1,
and no call to `generateTxOpts`, `SetMultiaddr` or `SetResolver` was made,
whatever the flags and the other answers are. -/
theorem unset_owner_no_submission (g : Globals) (env : Env)
    (h : (env.Owner env.RegistryContract.val (env.NameHash g.ensDomain)).val
      = env.UnknownAddress) :
    ((runMultiaddrSet g env).exitCode = some 1 ∧
      CallKind.generateTxOpts ∉ (runMultiaddrSet g env).world.kinds ∧
      CallKind.SetMultiaddr ∉ (runMultiaddrSet g env).world.kinds ∧
      CallKind.SetResolver ∉ (runMultiaddrSet g env).world.kinds) ∧
    ((runResolverClear g env).exitCode = some 1 ∧
      CallKind.generateTxOpts ∉ (runResolverClear g env).world.kinds ∧
      CallKind.SetMultiaddr ∉ (runResolverClear g env).world.kinds ∧
      CallKind.SetResolver ∉ (runResolverClear g env).world.kinds) := by
  have h1 : (env.owner g).val = env.UnknownAddress := h
  constructor
  · rcases multiaddrSet_cases g env with c | c | c | c | c | c | c | c | c | c | c <;>
      simp_all [Ends, World.kinds, multiaddrSetCalls, Call.kind]
  · rcases resolverClear_cases g env with c | c | c | c | c | c | c | c | c <;>
      simp_all [Ends, World.kinds, resolverClearCalls, Call.kind]

/-- Witness for C1: `enstest.eth` on a registry that reports it unowned. -/
theorem unset_owner_no_submission_witness :
    (unownedEnv.Owner unownedEnv.RegistryContract.val
        (unownedEnv.NameHash sampleGlobals.ensDomain)).val = unownedEnv.UnknownAddress ∧
    ((runMultiaddrSet sampleGlobals unownedEnv).exitCode = some 1 ∧
      CallKind.generateTxOpts ∉ (runMultiaddrSet sampleGlobals unownedEnv).world.kinds ∧
      CallKind.SetMultiaddr ∉ (runMultiaddrSet sampleGlobals unownedEnv).world.kinds ∧
      CallKind.SetResolver ∉ (runMultiaddrSet sampleGlobals unownedEnv).world.kinds) ∧
    ((runResolverClear sampleGlobals unownedEnv).exitCode = some 1 ∧
      CallKind.generateTxOpts ∉ (runResolverClear sampleGlobals unownedEnv).world.kinds ∧
      CallKind.SetMultiaddr ∉ (runResolverClear sampleGlobals unownedEnv).world.kinds ∧
      CallKind.SetResolver ∉ (runResolverClear sampleGlobals unownedEnv).world.kinds) :=
  ⟨by decide, unset_owner_no_submission sampleGlobals unownedEnv (by decide)⟩

/-- C2. In every run of `ens resolver clear`, a `SetResolver` call that was
made is on the registry contract, has the name hash of the input domain as its
key and the unset sentinel address as its resolver argument, and was preceded
by an owner lookup that returned no error and an address other than the
sentinel. -/
theorem resolver_clear_write (g : Globals) (env : Env) (registry : Registry)
    (opts : TransactOpts) (node : Hash) (resolver : Address) (failed : Bool)
    (h : ⟨.SetResolver registry opts node resolver, failed⟩
      ∈ (runResolverClear g env).world.calls) :
    resolver = env.UnknownAddress ∧ node = env.NameHash g.ensDomain ∧
    registry = env.RegistryContract.val ∧
    ⟨.Owner env.RegistryContract.val (env.NameHash g.ensDomain), false⟩
      ∈ (runResolverClear g env).world.calls ∧
    (env.Owner env.RegistryContract.val (env.NameHash g.ensDomain)).err = none ∧
    (env.Owner env.RegistryContract.val (env.NameHash g.ensDomain)).val
      ≠ env.UnknownAddress := by
  rcases resolverClear_cases g env with c | c | c | c | c | c | c | c | c <;>
    simp_all [Ends, resolverClearCalls, Env.resolverWrite, Env.owner]

/-- Witness for C2: the `SetResolver` call of a successful run for `enstest.eth`. -/
theorem resolver_clear_write_witness :
    (⟨.SetResolver ⟨⟨[1]⟩⟩ ⟨⟨List.replicate 20 7⟩, 1, 2, 3⟩ sampleHash ⟨List.replicate 20 0⟩,
        false⟩ : Event) ∈ (runResolverClear sampleGlobals sampleEnv).world.calls ∧
    ((⟨List.replicate 20 0⟩ : Address) = sampleEnv.UnknownAddress ∧
      sampleHash = sampleEnv.NameHash sampleGlobals.ensDomain ∧
      (⟨⟨[1]⟩⟩ : Registry) = sampleEnv.RegistryContract.val ∧
      ⟨.Owner sampleEnv.RegistryContract.val (sampleEnv.NameHash sampleGlobals.ensDomain), false⟩
        ∈ (runResolverClear sampleGlobals sampleEnv).world.calls ∧
      (sampleEnv.Owner sampleEnv.RegistryContract.val
        (sampleEnv.NameHash sampleGlobals.ensDomain)).err = none ∧
      (sampleEnv.Owner sampleEnv.RegistryContract.val
        (sampleEnv.NameHash sampleGlobals.ensDomain)).val ≠ sampleEnv.UnknownAddress) :=
  ⟨by decide, resolver_clear_write sampleGlobals sampleEnv ⟨⟨[1]⟩⟩ ⟨⟨List.replicate 20 7⟩, 1, 2, 3⟩
    sampleHash ⟨List.replicate 20 0⟩ false (by decide)⟩

/-- C3, as amended. With offline mode off, a non-empty domain, a well-formed
multiaddr, a domain with a valid owner and a resolver, and transaction options
that could be built, `ens multiaddr set` makes exactly one contract write: the
`SetMultiaddr` call keyed by the name hash of the domain and carrying the bytes
of the parsed multiaddr. When that write succeeds and quiet mode is off, the
one line printed is the hash of the returned transaction, a string of 66
characters: `0x` and 64 hexadecimal digits. In quiet mode nothing is printed. -/
theorem multiaddr_set_single_write (g : Globals) (env : Env)
    (hoff : g.offline = false) (hd : g.ensDomain ≠ "")
    (hreq : WellFormedRequest g env) (hopts : (env.opts g).err = none) :
    (runMultiaddrSet g env).world.writes =
      [⟨.SetMultiaddr (env.ResolverContract g.ensDomain).val (env.opts g).val
          (env.NameHash g.ensDomain) (env.multiaddr g).val.Bytes,
        (env.multiaddrTx g).err.isSome⟩] ∧
    ((env.multiaddrTx g).err = none → g.quiet = false →
      (runMultiaddrSet g env).world.stdout = [(env.multiaddrTx g).val.Hash.Hex ++ "\n"]) ∧
    ((env.multiaddrTx g).err = none → g.quiet = true →
      (runMultiaddrSet g env).world.stdout = []) ∧
    (env.multiaddrTx g).val.Hash.Hex.length = 66 ∧
    (env.multiaddrTx g).val.Hash.Hex.data.take 2 = ['0', 'x'] ∧
    ∀ c ∈ (env.multiaddrTx g).val.Hash.Hex.data.drop 2, c ∈ hexDigits := by
  obtain ⟨h1, h2, h3, h4, h5⟩ := hreq
  refine ⟨?_, ?_, ?_, hex_length _, by simp [hex_data], ?_⟩
  · rcases multiaddrSet_cases g env with c | c | c | c | c | c | c | c | c | c | c <;>
      simp_all [Ends, World.writes, multiaddrSetCalls, Call.isWrite, Env.multiaddrWrite]
  · intro htx hq
    rcases multiaddrSet_cases g env with c | c | c | c | c | c | c | c | c | c | c <;>
      simp_all [Ends]
  · intro htx hq
    rcases multiaddrSet_cases g env with c | c | c | c | c | c | c | c | c | c | c <;>
      simp_all [Ends]
  · intro c hc
    rw [hex_data] at hc
    exact flatMap_hexByte_digits _ c (by simpa using hc)

/-- Witness for C3: a successful run for `enstest.eth` and `/ip4/1.2.3.4`. -/
theorem multiaddr_set_single_write_witness :
    (sampleGlobals.offline = false ∧ sampleGlobals.ensDomain ≠ "" ∧
      WellFormedRequest sampleGlobals sampleEnv ∧ (sampleEnv.opts sampleGlobals).err = none) ∧
    ((runMultiaddrSet sampleGlobals sampleEnv).world.writes =
      [⟨.SetMultiaddr (sampleEnv.ResolverContract sampleGlobals.ensDomain).val
          (sampleEnv.opts sampleGlobals).val (sampleEnv.NameHash sampleGlobals.ensDomain)
          (sampleEnv.multiaddr sampleGlobals).val.Bytes,
        (sampleEnv.multiaddrTx sampleGlobals).err.isSome⟩] ∧
    ((sampleEnv.multiaddrTx sampleGlobals).err = none → sampleGlobals.quiet = false →
      (runMultiaddrSet sampleGlobals sampleEnv).world.stdout
        = [(sampleEnv.multiaddrTx sampleGlobals).val.Hash.Hex ++ "\n"]) ∧
    ((sampleEnv.multiaddrTx sampleGlobals).err = none → sampleGlobals.quiet = true →
      (runMultiaddrSet sampleGlobals sampleEnv).world.stdout = []) ∧
    (sampleEnv.multiaddrTx sampleGlobals).val.Hash.Hex.length = 66 ∧
    (sampleEnv.multiaddrTx sampleGlobals).val.Hash.Hex.data.take 2 = ['0', 'x'] ∧
    ∀ c ∈ (sampleEnv.multiaddrTx sampleGlobals).val.Hash.Hex.data.drop 2, c ∈ hexDigits) :=
  ⟨⟨by decide, by decide, by unfold WellFormedRequest; decide, by decide⟩,
    multiaddr_set_single_write sampleGlobals sampleEnv (by decide) (by decide)
      (by unfold WellFormedRequest; decide) (by decide)⟩

/-- C3 as stated fails. The premise the specification words holds at each of
these inputs, yet: in quiet mode the write succeeds and nothing is printed;
when transaction options cannot be built, in offline mode, and with an empty
domain, no contract write is made at all. -/
theorem multiaddr_set_print_counterexample :
    (WellFormedRequest quietGlobals sampleEnv ∧
      (sampleEnv.multiaddrTx quietGlobals).err = none ∧
      (runMultiaddrSet quietGlobals sampleEnv).world.writes.length = 1 ∧
      (runMultiaddrSet quietGlobals sampleEnv).world.stdout = []) ∧
    (WellFormedRequest sampleGlobals lockedEnv ∧
      (runMultiaddrSet sampleGlobals lockedEnv).world.writes = []) ∧
    (WellFormedRequest offlineGlobals sampleEnv ∧
      (runMultiaddrSet offlineGlobals sampleEnv).world.writes = []) ∧
    (WellFormedRequest noDomainGlobals sampleEnv ∧
      (runMultiaddrSet noDomainGlobals sampleEnv).world.writes = []) := by
  unfold WellFormedRequest
  decide

/-- C4. When `ma.NewMultiaddr` rejects the multiaddr string, `ens multiaddr set`
exits with code 1, and no call to `ResolverContract`, `generateTxOpts` or
`SetMultiaddr` was made: no contract write of any kind, for every domain and
every outcome of the registry reads. -/
theorem malformed_multiaddr_fails (g : Globals) (env : Env)
    (h : (env.NewMultiaddr g.ensMultiaddrSetMultiaddrStr).err ≠ none) :
    (runMultiaddrSet g env).exitCode = some 1 ∧
    CallKind.ResolverContract ∉ (runMultiaddrSet g env).world.kinds ∧
    CallKind.generateTxOpts ∉ (runMultiaddrSet g env).world.kinds ∧
    CallKind.SetMultiaddr ∉ (runMultiaddrSet g env).world.kinds ∧
    (runMultiaddrSet g env).world.writes = [] := by
  have h1 : (env.multiaddr g).err ≠ none := h
  rcases multiaddrSet_cases g env with c | c | c | c | c | c | c | c | c | c | c <;>
    simp_all [Ends, World.kinds, World.writes, multiaddrSetCalls, Call.kind, Call.isWrite]

/-- Witness for C4: `--multiaddr=not-a-multiaddr` on an owned domain. -/
theorem malformed_multiaddr_fails_witness :
    (sampleEnv.NewMultiaddr badMultiaddrGlobals.ensMultiaddrSetMultiaddrStr).err ≠ none ∧
    ((runMultiaddrSet badMultiaddrGlobals sampleEnv).exitCode = some 1 ∧
      CallKind.ResolverContract ∉ (runMultiaddrSet badMultiaddrGlobals sampleEnv).world.kinds ∧
      CallKind.generateTxOpts ∉ (runMultiaddrSet badMultiaddrGlobals sampleEnv).world.kinds ∧
      CallKind.SetMultiaddr ∉ (runMultiaddrSet badMultiaddrGlobals sampleEnv).world.kinds ∧
      (runMultiaddrSet badMultiaddrGlobals sampleEnv).world.writes = []) :=
  ⟨by decide, malformed_multiaddr_fails badMultiaddrGlobals sampleEnv (by decide)⟩

/-- C5. With an empty `--domain`, both commands exit with code 1 and make no
call at all: no `RegistryContract`, `Owner`, `ResolverContract`,
`generateTxOpts`, `SetMultiaddr` or `SetResolver`. -/
theorem missing_domain_fails (g : Globals) (env : Env) (h : g.ensDomain = "") :
    ((runMultiaddrSet g env).exitCode = some 1 ∧ (runMultiaddrSet g env).world.calls = []) ∧
    ((runResolverClear g env).exitCode = some 1 ∧ (runResolverClear g env).world.calls = []) := by
  constructor
  · rcases multiaddrSet_cases g env with c | c | c | c | c | c | c | c | c | c | c <;>
      simp_all [Ends]
  · rcases resolverClear_cases g env with c | c | c | c | c | c | c | c | c <;>
      simp_all [Ends]

/-- Witness for C5: the flags without `--domain`. -/
theorem missing_domain_fails_witness :
    noDomainGlobals.ensDomain = "" ∧
    ((runMultiaddrSet noDomainGlobals sampleEnv).exitCode = some 1 ∧
      (runMultiaddrSet noDomainGlobals sampleEnv).world.calls = []) ∧
    ((runResolverClear noDomainGlobals sampleEnv).exitCode = some 1 ∧
      (runResolverClear noDomainGlobals sampleEnv).world.calls = []) :=
  ⟨by decide, missing_domain_fails noDomainGlobals sampleEnv (by decide)⟩

/-- C6. For both commands: in quiet mode a run whose contract write returned a
signed transaction exits with code 0 and writes nothing to standard output; a
run that did not get that far exits with code 1, in quiet mode or not. -/
theorem quiet_mode_exit_codes (g : Globals) (env : Env) :
    ((g.quiet = true → (runMultiaddrSet g env).succeeded →
        (runMultiaddrSet g env).exitCode = some 0 ∧
        (runMultiaddrSet g env).world.stdout = []) ∧
      (¬ (runMultiaddrSet g env).succeeded → (runMultiaddrSet g env).exitCode = some 1)) ∧
    ((g.quiet = true → (runResolverClear g env).succeeded →
        (runResolverClear g env).exitCode = some 0 ∧
        (runResolverClear g env).world.stdout = []) ∧
      (¬ (runResolverClear g env).succeeded → (runResolverClear g env).exitCode = some 1)) := by
  constructor
  · rcases multiaddrSet_cases g env with c | c | c | c | c | c | c | c | c | c | c <;>
      simp_all [Ends, Step.succeeded, multiaddrSetCalls, Call.isWrite, Env.multiaddrWrite]
  · rcases resolverClear_cases g env with c | c | c | c | c | c | c | c | c <;>
      simp_all [Ends, Step.succeeded, resolverClearCalls, Call.isWrite, Env.resolverWrite]

/-- Witness for C6: a quiet successful run and a run that cannot unlock the account, for each command. -/
theorem quiet_mode_exit_codes_witness :
    (quietGlobals.quiet = true ∧ (runMultiaddrSet quietGlobals sampleEnv).succeeded ∧
      (runMultiaddrSet quietGlobals sampleEnv).exitCode = some 0 ∧
      (runMultiaddrSet quietGlobals sampleEnv).world.stdout = []) ∧
    (¬ (runMultiaddrSet sampleGlobals lockedEnv).succeeded ∧
      (runMultiaddrSet sampleGlobals lockedEnv).exitCode = some 1) ∧
    (quietGlobals.quiet = true ∧ (runResolverClear quietGlobals sampleEnv).succeeded ∧
      (runResolverClear quietGlobals sampleEnv).exitCode = some 0 ∧
      (runResolverClear quietGlobals sampleEnv).world.stdout = []) ∧
    (¬ (runResolverClear quietGlobals lockedEnv).succeeded ∧
      (runResolverClear quietGlobals lockedEnv).exitCode = some 1) :=
  have s1 : (runMultiaddrSet quietGlobals sampleEnv).succeeded := by
    unfold Step.succeeded; decide
  have f1 : ¬ (runMultiaddrSet sampleGlobals lockedEnv).succeeded := by
    unfold Step.succeeded; decide
  have s2 : (runResolverClear quietGlobals sampleEnv).succeeded := by
    unfold Step.succeeded; decide
  have f2 : ¬ (runResolverClear quietGlobals lockedEnv).succeeded := by
    unfold Step.succeeded; decide
  ⟨⟨rfl, s1, (quiet_mode_exit_codes quietGlobals sampleEnv).1.1 rfl s1⟩,
   ⟨f1, (quiet_mode_exit_codes sampleGlobals lockedEnv).1.2 f1⟩,
   ⟨rfl, s2, (quiet_mode_exit_codes quietGlobals sampleEnv).2.1 rfl s2⟩,
   ⟨f2, (quiet_mode_exit_codes quietGlobals lockedEnv).2.2 f2⟩⟩

/-- C7. In offline mode both commands exit with code 1 and make no call at
all, whatever the other flags are: the offline check is the first step. -/
theorem offline_mode_fails (g : Globals) (env : Env) (h : g.offline = true) :
    ((runMultiaddrSet g env).exitCode = some 1 ∧ (runMultiaddrSet g env).world.calls = []) ∧
    ((runResolverClear g env).exitCode = some 1 ∧ (runResolverClear g env).world.calls = []) := by
  constructor
  · rcases multiaddrSet_cases g env with c | c | c | c | c | c | c | c | c | c | c <;>
      simp_all [Ends]
  · rcases resolverClear_cases g env with c | c | c | c | c | c | c | c | c <;>
      simp_all [Ends]

/-- Witness for C7: the flags in offline mode. -/
theorem offline_mode_fails_witness :
    offlineGlobals.offline = true ∧
    ((runMultiaddrSet offlineGlobals sampleEnv).exitCode = some 1 ∧
      (runMultiaddrSet offlineGlobals sampleEnv).world.calls = []) ∧
    ((runResolverClear offlineGlobals sampleEnv).exitCode = some 1 ∧
      (runResolverClear offlineGlobals sampleEnv).world.calls = []) :=
  ⟨by decide, offline_mode_fails offlineGlobals sampleEnv (by decide)⟩

/-- C8. For both commands and every combination of answers: the calls made are
an initial segment of the fixed pipeline of the command, each with the
arguments and outcome the pipeline gives it; no kind of call occurs twice;
every call but the last one made returned no error, so no call follows a
failed one; and if any call returned an error the run exits with code 1. In
particular a failing resolver lookup leaves `SetMultiaddr` uncalled. -/
theorem fail_fast_pipeline (g : Globals) (env : Env) :
    ((runMultiaddrSet g env).world.calls <+: multiaddrSetCalls g env ∧
      (runMultiaddrSet g env).world.kinds <+: multiaddrSetPipeline ∧
      (runMultiaddrSet g env).world.kinds.Nodup ∧
      (∀ e ∈ (runMultiaddrSet g env).world.calls.dropLast, e.failed = false) ∧
      ((∃ e ∈ (runMultiaddrSet g env).world.calls, e.failed = true) →
        (runMultiaddrSet g env).exitCode = some 1) ∧
      ((env.ResolverContract g.ensDomain).err ≠ none →
        CallKind.SetMultiaddr ∉ (runMultiaddrSet g env).world.kinds)) ∧
    ((runResolverClear g env).world.calls <+: resolverClearCalls g env ∧
      (runResolverClear g env).world.kinds <+: resolverClearPipeline ∧
      (runResolverClear g env).world.kinds.Nodup ∧
      (∀ e ∈ (runResolverClear g env).world.calls.dropLast, e.failed = false) ∧
      ((∃ e ∈ (runResolverClear g env).world.calls, e.failed = true) →
        (runResolverClear g env).exitCode = some 1)) := by
  constructor
  · rcases multiaddrSet_cases g env with c | c | c | c | c | c | c | c | c | c | c <;>
      simp_all [Ends, World.kinds, multiaddrSetCalls, multiaddrSetPipeline, Call.kind,
        Env.multiaddrWrite, List.cons_prefix_cons]
  · rcases resolverClear_cases g env with c | c | c | c | c | c | c | c | c <;>
      simp_all [Ends, World.kinds, resolverClearCalls, resolverClearPipeline, Call.kind,
        Env.resolverWrite, List.cons_prefix_cons]

/-- Witness for C8: a domain without resolver, and an account that cannot be unlocked. -/
theorem fail_fast_pipeline_witness :
    ((∃ e ∈ (runMultiaddrSet sampleGlobals noResolverEnv).world.calls, e.failed = true) ∧
      (runMultiaddrSet sampleGlobals noResolverEnv).exitCode = some 1) ∧
    ((noResolverEnv.ResolverContract sampleGlobals.ensDomain).err ≠ none ∧
      CallKind.SetMultiaddr ∉ (runMultiaddrSet sampleGlobals noResolverEnv).world.kinds) ∧
    ((∃ e ∈ (runResolverClear sampleGlobals lockedEnv).world.calls, e.failed = true) ∧
      (runResolverClear sampleGlobals lockedEnv).exitCode = some 1) :=
  ⟨⟨by decide, (fail_fast_pipeline sampleGlobals noResolverEnv).1.2.2.2.2.1 (by decide)⟩,
   ⟨by decide, (fail_fast_pipeline sampleGlobals noResolverEnv).1.2.2.2.2.2 (by decide)⟩,
   ⟨by decide, (fail_fast_pipeline sampleGlobals lockedEnv).2.2.2.2.2 (by decide)⟩⟩

/-- C9, as amended. An empty `--domain` makes both commands exit with code 1
before any call. A `--multiaddr` value the parser rejects makes
`ens multiaddr set` exit with code 1 without any resolver lookup,
transaction-option generation or contract write; the only calls that can have
been made by then are `RegistryContract`, `Owner` and `NewMultiaddr` itself. -/
theorem usage_errors_fail_early (g : Globals) (env : Env) :
    (g.ensDomain = "" →
      ((runMultiaddrSet g env).exitCode = some 1 ∧ (runMultiaddrSet g env).world.calls = []) ∧
      ((runResolverClear g env).exitCode = some 1 ∧
        (runResolverClear g env).world.calls = [])) ∧
    ((env.NewMultiaddr g.ensMultiaddrSetMultiaddrStr).err ≠ none →
      (runMultiaddrSet g env).exitCode = some 1 ∧
      (runMultiaddrSet g env).world.kinds
        <+: [CallKind.RegistryContract, CallKind.Owner, CallKind.NewMultiaddr] ∧
      (runMultiaddrSet g env).world.writes = []) := by
  refine ⟨fun h => ⟨?_, ?_⟩, fun h => ?_⟩
  · rcases multiaddrSet_cases g env with c | c | c | c | c | c | c | c | c | c | c <;>
      simp_all [Ends]
  · rcases resolverClear_cases g env with c | c | c | c | c | c | c | c | c <;>
      simp_all [Ends]
  · have h1 : (env.multiaddr g).err ≠ none := h
    rcases multiaddrSet_cases g env with c | c | c | c | c | c | c | c | c | c | c <;>
      simp_all [Ends, World.kinds, World.writes, multiaddrSetCalls, Call.kind, Call.isWrite,
        List.cons_prefix_cons]

/-- Witness for C9: the flags without `--domain`, and `--multiaddr=not-a-multiaddr`. -/
theorem usage_errors_fail_early_witness :
    (noDomainGlobals.ensDomain = "" ∧
      ((runMultiaddrSet noDomainGlobals sampleEnv).exitCode = some 1 ∧
        (runMultiaddrSet noDomainGlobals sampleEnv).world.calls = []) ∧
      ((runResolverClear noDomainGlobals sampleEnv).exitCode = some 1 ∧
        (runResolverClear noDomainGlobals sampleEnv).world.calls = [])) ∧
    ((sampleEnv.NewMultiaddr badMultiaddrGlobals.ensMultiaddrSetMultiaddrStr).err ≠ none ∧
      (runMultiaddrSet badMultiaddrGlobals sampleEnv).exitCode = some 1 ∧
      (runMultiaddrSet badMultiaddrGlobals sampleEnv).world.kinds
        <+: [CallKind.RegistryContract, CallKind.Owner, CallKind.NewMultiaddr] ∧
      (runMultiaddrSet badMultiaddrGlobals sampleEnv).world.writes = []) :=
  ⟨⟨by decide, (usage_errors_fail_early noDomainGlobals sampleEnv).1 (by decide)⟩,
   ⟨by decide, (usage_errors_fail_early badMultiaddrGlobals sampleEnv).2 (by decide)⟩⟩

/-- C9 as stated fails. With `--multiaddr=not-a-multiaddr` on an owned domain,
`ens multiaddr set` has already called `RegistryContract` and `Owner`, both
network reads, when the parser rejects the value and the command fails. -/
theorem usage_errors_counterexample :
    (sampleEnv.NewMultiaddr badMultiaddrGlobals.ensMultiaddrSetMultiaddrStr).err ≠ none ∧
    (runMultiaddrSet badMultiaddrGlobals sampleEnv).exitCode = some 1 ∧
    (runMultiaddrSet badMultiaddrGlobals sampleEnv).world.kinds
      = [CallKind.RegistryContract, CallKind.Owner, CallKind.NewMultiaddr] ∧
    ¬ (∀ e ∈ (runMultiaddrSet badMultiaddrGlobals sampleEnv).world.calls,
        e.call.isNetwork = false) := by
  decide

/-- C10, as amended. A record handed to the logging sink by `ens multiaddr set`
has the fields `group`, `command` and `domain`, the last holding the input
domain. A record of `ens resolver clear` starts with the fields the command
supplies, which are `group`, `command` and `ensdomain`, the last holding the
input domain, and among which there is no field named `domain`. A run whose
contract write succeeded emits exactly one record. -/
theorem log_record_fields (g : Globals) (env : Env) :
    ((∀ r ∈ (runMultiaddrSet g env).world.logs,
        r.lookup "group" = some (.str "ens/multiaddr") ∧
        r.lookup "command" = some (.str "set") ∧
        r.lookup "domain" = some (.str g.ensDomain)) ∧
      ((runMultiaddrSet g env).succeeded → (runMultiaddrSet g env).world.logs.length = 1)) ∧
    ((∀ r ∈ (runResolverClear g env).world.logs,
        ensResolverClearCmd.logFields g <+: r ∧
        r.lookup "group" = some (.str "ens/resolver") ∧
        r.lookup "command" = some (.str "clear") ∧
        r.lookup "ensdomain" = some (.str g.ensDomain)) ∧
      (ensResolverClearCmd.logFields g).lookup "domain" = none ∧
      ((runResolverClear g env).succeeded → (runResolverClear g env).world.logs.length = 1)) := by
  refine ⟨?_, ?_⟩
  · rcases multiaddrSet_cases g env with c | c | c | c | c | c | c | c | c | c | c <;>
      simp_all [Ends, Step.succeeded, multiaddrSetCalls, Call.isWrite, Env.multiaddrWrite,
        ensMultiaddrSetCmd.logFields, List.lookup]
  · rcases resolverClear_cases g env with c | c | c | c | c | c | c | c | c <;>
      simp_all [Ends, Step.succeeded, resolverClearCalls, Call.isWrite, Env.resolverWrite,
        ensResolverClearCmd.logFields, List.lookup]

/-- Witness for C10: a successful run of each command for `enstest.eth`. -/
theorem log_record_fields_witness :
    ((runMultiaddrSet sampleGlobals sampleEnv).succeeded ∧
      (runMultiaddrSet sampleGlobals sampleEnv).world.logs.length = 1) ∧
    ((runResolverClear sampleGlobals sampleEnv).succeeded ∧
      (runResolverClear sampleGlobals sampleEnv).world.logs.length = 1) :=
  have s1 : (runMultiaddrSet sampleGlobals sampleEnv).succeeded := by
    unfold Step.succeeded; decide
  have s2 : (runResolverClear sampleGlobals sampleEnv).succeeded := by
    unfold Step.succeeded; decide
  ⟨⟨s1, (log_record_fields sampleGlobals sampleEnv).1.2 s1⟩,
   ⟨s2, (log_record_fields sampleGlobals sampleEnv).2.2.2 s2⟩⟩

/-- C10 as stated fails for `ens resolver clear`: on a successful run for
`enstest.eth`, the fields the command supplies hold the domain under the name
`ensdomain`, and no field is named `domain`. -/
theorem log_record_fields_counterexample :
    (runResolverClear sampleGlobals sampleEnv).exitCode = some 0 ∧
    (ensResolverClearCmd.logFields sampleGlobals).map Prod.fst
      = ["group", "command", "ensdomain"] ∧
    (ensResolverClearCmd.logFields sampleGlobals).lookup "domain" = none ∧
    (ensResolverClearCmd.logFields sampleGlobals).lookup "ensdomain"
      = some (.str "enstest.eth") := by
  decide

end Ethereal
